import Mathlib

/-!
Verification development for the Narravance asynchronous task-processing
pipeline.  The repository has two parallel pipelines:

* the refactored core: `backend/worker.py` (`JobQueue`), `backend/models.py`
  (`Task` with `error_message`, `DataRecord`), `backend/config.py`;
* the self-contained prototype: `backend/app.py`, with its own `Task` model
  (no `error_message` column), an unbounded global `queue.Queue()` and a
  `data_ingestion` function that never consults its `filters` argument.

Both are embedded below.  Machine-level details abstracted: pandas numeric
cells are carried as optional integers (no claim touches their arithmetic);
a datetime cell is represented by its parse outcome (`DateVal`); a Python
string holding JSON is represented together with its `json.loads` outcome.
-/

namespace Narravance

/-- Outcome of a raw `sale_date` cell under `pandas.to_datetime`:
absent (NaN), unparseable text (raises with `errors="raise"`,
becomes NaT with `errors="coerce"`), or a parsed timestamp. -/
inductive DateVal where
  | missing
  | unparseable
  | date (d : Int)
deriving DecidableEq

/-- One row of the unified CSV (`data/unified_cars.csv`), fields as read by
`worker.py::_create_records` / `app.py::data_ingestion`. -/
structure Row where
  company : Option String := none
  name : Option String := none
  mpg : Option Int := none
  cylinders : Option Int := none
  displacement : Option Int := none
  horsepower : Option Int := none
  weight : Option Int := none
  acceleration : Option Int := none
  sale_date : DateVal := .missing
  price : Option Int := none
  origin : Option String := none
deriving DecidableEq

/-- The recognized keys of a structured filters dict (`startDate`, `endDate`,
`carBrands`), plus the unrecognized keys, which the worker ignores.
`none` means the key is absent. -/
structure FilterSpec where
  startDate : Option Int := none
  endDate : Option Int := none
  carBrands : Option (List String) := none
  otherKeys : List String := []
deriving DecidableEq

/-- A Python value as it can arrive in the `filters` argument.  A string is
carried together with the outcome of `json.loads` on it (`none` = the text is
not valid JSON). -/
inductive PyVal where
  | pyNone
  | pyInt (n : Int)
  | pyStr (s : String) (parsed : Option PyVal)
  | pyList (xs : List PyVal)
  | pyDict (f : FilterSpec)

/-- Python truthiness of a `filters` value (`if filters:` in
`worker.py::_process_task`). -/
def pyTruthy : PyVal → Bool
  | .pyNone => false
  | .pyInt n => n != 0
  | .pyStr s _ => s != ""
  | .pyList xs => !xs.isEmpty
  | .pyDict f =>
      f.startDate.isSome || f.endDate.isSome || f.carBrands.isSome ||
        !f.otherKeys.isEmpty

/-- Whether a column holds a value `pandas.to_datetime` cannot parse. -/
def colHasUnparseable (rows : List Row) : Bool :=
  rows.any (fun r => r.sale_date == DateVal.unparseable)

/-- `pd.to_datetime(df["sale_date"])` with the default `errors="raise"`:
raises if any cell is unparseable, otherwise converts (NaN becomes NaT;
the row set itself is unchanged). -/
def convertDates (rows : List Row) : Except String (List Row) :=
  if colHasUnparseable rows then .error "Unknown datetime string format"
  else .ok rows

/-- Series comparison `sale_date >= bound`; NaT compares false. -/
def dateGe (v : DateVal) (bound : Int) : Bool :=
  match v with
  | .date d => bound ≤ d
  | _ => false

/-- Series comparison `sale_date <= bound`; NaT compares false. -/
def dateLe (v : DateVal) (bound : Int) : Bool :=
  match v with
  | .date d => d ≤ bound
  | _ => false

/-- `df["company"].isin(brands)`: exact, case-sensitive string equality;
a missing company (NaN) is in no brand list. -/
def companyMatches (brands : List String) (r : Row) : Bool :=
  match r.company with
  | some c => brands.contains c
  | none => false

/-- `worker.py::_apply_filters`, the branch where `filters` is a dict:
each recognized key present applies its constraint in sequence
(`startDate` with `>=`, `endDate` with `<=`, then `carBrands` when present
and non-empty); `pd.to_datetime` runs before each date comparison. -/
def applyDictFilters (rows : List Row) (f : FilterSpec) : Except String (List Row) :=
  let step1 : Except String (List Row) :=
    match f.startDate with
    | some lo =>
        match convertDates rows with
        | .error e => .error e
        | .ok rs => .ok (rs.filter (fun r => dateGe r.sale_date lo))
    | none => .ok rows
  match step1 with
  | .error e => .error e
  | .ok rows1 =>
    let step2 : Except String (List Row) :=
      match f.endDate with
      | some hi =>
          match convertDates rows1 with
          | .error e => .error e
          | .ok rs => .ok (rs.filter (fun r => dateLe r.sale_date hi))
      | none => .ok rows1
    match step2 with
    | .error e => .error e
    | .ok rows2 =>
      match f.carBrands with
      | some bs => if !bs.isEmpty then .ok (rows2.filter (companyMatches bs)) else .ok rows2
      | none => .ok rows2

/-- Substring test over character lists (Python `k in s` for strings). -/
def strHasSub (k hay : String) : Bool :=
  (List.range (hay.toList.length + 1)).any
    (fun i => ((hay.toList.drop i).take k.toList.length) == k.toList)

/-- Python `k in v` for the non-dict values the filters argument can take:
element membership for a list, substring test for a str, `TypeError` for
int/None (not iterable). -/
def keyIn (k : String) : PyVal → Except String Bool
  | .pyDict f =>
      .ok (if k = "startDate" then f.startDate.isSome
           else if k = "endDate" then f.endDate.isSome
           else if k = "carBrands" then f.carBrands.isSome
           else f.otherKeys.contains k)
  | .pyList xs =>
      .ok (xs.any (fun v => match v with | .pyStr s _ => s == k | _ => false))
  | .pyStr s _ => .ok (strHasSub k s)
  | .pyInt _ => .error "TypeError: argument of type int is not iterable"
  | .pyNone => .error "TypeError: argument of type NoneType is not iterable"

/-- The `TypeError` raised by `filters[k]` when `filters` is not a dict. -/
def subscriptError : PyVal → String
  | .pyList _ => "TypeError: list indices must be integers or slices, not str"
  | .pyStr _ _ => "TypeError: string indices must be integers"
  | _ => "TypeError: value is not subscriptable"

/-- `worker.py::_apply_filters` on a non-dict value: each `k in filters` test
either raises (int/None), or, when it succeeds, the following subscript
`filters[k]` raises; when every membership test is false the function falls
through and returns the rows unchanged.  For a date key the
`pd.to_datetime` conversion runs before the subscript. -/
def applyNonDictFilters (rows : List Row) (v : PyVal) : Except String (List Row) :=
  match keyIn "startDate" v with
  | .error e => .error e
  | .ok true =>
      match convertDates rows with
      | .error e => .error e
      | .ok _ => .error (subscriptError v)
  | .ok false =>
      match keyIn "endDate" v with
      | .error e => .error e
      | .ok true =>
          match convertDates rows with
          | .error e => .error e
          | .ok _ => .error (subscriptError v)
      | .ok false =>
          match keyIn "carBrands" v with
          | .error e => .error e
          | .ok true => .error (subscriptError v)
          | .ok false => .ok rows

/-- `worker.py::_apply_filters`: a string argument is `json.loads`-ed first
(raising on malformed JSON); then the recognized keys are applied.  The
`except` clause logs and re-raises, so every error propagates. -/
def applyFilters (rows : List Row) (filters : PyVal) : Except String (List Row) :=
  match filters with
  | .pyStr _ none => .error "json.decoder.JSONDecodeError: Expecting value"
  | .pyStr _ (some (.pyDict f)) => applyDictFilters rows f
  | .pyStr _ (some w) => applyNonDictFilters rows w
  | .pyDict f => applyDictFilters rows f
  | v => applyNonDictFilters rows v

/-- The date constraint of a spec, as §4.3 states it: inclusive bounds, a
missing/NaT date satisfies no present bound, and an absent bound constrains
nothing. -/
def dateOk (f : FilterSpec) (r : Row) : Bool :=
  (match f.startDate with | some lo => dateGe r.sale_date lo | none => true) &&
  (match f.endDate with | some hi => dateLe r.sale_date hi | none => true)

/-- The brand constraint of a spec: applies only when `carBrands` is present
and non-empty. -/
def brandOk (f : FilterSpec) (r : Row) : Bool :=
  match f.carBrands with
  | some bs => if bs.isEmpty then true else companyMatches bs r
  | none => true

/-- `models.py::Task` as the worker mutates it: lifecycle columns only
(`filters` and `created_at` are written once at creation and never read by
the worker; the `filters` column itself is modelled with `JVal` below). -/
structure Task where
  status : String := "pending"
  error_message : Option String := none
  completed_at : Option Nat := none
deriving DecidableEq

/-- `models.py::DataRecord`: one materialized row owned by a task.
`sale_date` is the stored datetime column (`none` = NULL/NaT). -/
structure DataRecord where
  task_id : Nat
  company : Option String := none
  name : Option String := none
  mpg : Option Int := none
  cylinders : Option Int := none
  displacement : Option Int := none
  horsepower : Option Int := none
  weight : Option Int := none
  acceleration : Option Int := none
  sale_date : Option Int := none
  price : Option Int := none
  origin : Option String := none
deriving DecidableEq

/-- The durable state the refactored worker reads and writes: the Task table
(id-keyed) and the DataRecord table. -/
structure WorkerStore where
  tasks : List (Nat × Task)
  records : List DataRecord
deriving DecidableEq

/-- `db.session.get(Task, task_id)`. -/
def sessionGetTask (st : WorkerStore) (id : Nat) : Option Task :=
  (st.tasks.find? (fun p => p.1 == id)).map (fun p => p.2)

/-- Committed update of the task row with the given id. -/
def updateTask (st : WorkerStore) (id : Nat) (f : Task → Task) : WorkerStore :=
  { st with tasks := st.tasks.map (fun p => if p.1 == id then (p.1, f p.2) else p) }

/-- `task.status = "in_progress"; db.session.commit()`. -/
def markInProgress (st : WorkerStore) (id : Nat) : WorkerStore :=
  updateTask st id (fun t => { t with status := "in_progress" })

/-- `task.status = "failed"; task.error_message = msg; db.session.commit()`. -/
def failTask (st : WorkerStore) (id : Nat) (msg : String) : WorkerStore :=
  updateTask st id (fun t => { t with status := "failed", error_message := some msg })

/-- `task.status = "completed"; task.completed_at = datetime.utcnow();
db.session.commit()`. -/
def completeTask (st : WorkerStore) (id : Nat) (now : Nat) : WorkerStore :=
  updateTask st id (fun t => { t with status := "completed", completed_at := some now })

/-- `pd.to_datetime(row.get("sale_date"))` with default `errors="raise"`:
NaN becomes NaT (NULL), a timestamp is kept, unparseable text raises. -/
def toDatetime : DateVal → Except String (Option Int)
  | .missing => .ok none
  | .date d => .ok (some d)
  | .unparseable => .error "Unknown datetime string format"

/-- Body of the loop in `worker.py::_create_records`: one DataRecord per row. -/
def rowToRecord (task_id : Nat) (r : Row) : Except String DataRecord :=
  match toDatetime r.sale_date with
  | .error e => .error e
  | .ok d =>
      .ok { task_id := task_id, company := r.company, name := r.name,
            mpg := r.mpg, cylinders := r.cylinders,
            displacement := r.displacement, horsepower := r.horsepower,
            weight := r.weight, acceleration := r.acceleration,
            sale_date := d, price := r.price, origin := r.origin }

/-- `worker.py::_create_records` with its batch commits: full batches of
`batch_size` are committed as the loop runs, so when a row raises, the
batches committed so far stay written and the pending partial batch is lost.
Returns the committed records and the raised message, if any. -/
def createRecordsGo (task_id : Nat) (batch_size : Nat) :
    List Row → List DataRecord → List DataRecord → (List DataRecord × Option String)
  | [], committed, pending => (committed ++ pending, none)
  | r :: rest, committed, pending =>
    match rowToRecord task_id r with
    | .error e => (committed, some e)
    | .ok rec =>
      let pending1 := pending ++ [rec]
      if batch_size ≤ pending1.length then
        createRecordsGo task_id batch_size rest (committed ++ pending1) []
      else
        createRecordsGo task_id batch_size rest committed pending1

/-- `worker.py::_create_records` at its configured batch size 1000. -/
def createRecords (rows : List Row) (task_id : Nat) : (List DataRecord × Option String) :=
  createRecordsGo task_id 1000 rows [] []

namespace Config

/-- `config.py::Config.UNIFIED_DATA_PATH` (the joined path constant). -/
def UNIFIED_DATA_PATH : String := "data/unified_cars.csv"

/-- `config.py::Config.MAX_QUEUE_SIZE`. -/
def MAX_QUEUE_SIZE : Nat := 100

end Config

/-- The external world one processing run observes: whether the unified CSV
exists, the outcome of `pd.read_csv` on it, and the clock. -/
structure Env where
  fileExists : Bool
  csv : Except String (List Row)
  now : Nat

/-- `worker.py::_process_task`: load the task (drop if missing), mark
in_progress, check the file, read the CSV, apply filters when truthy,
materialize records, then complete; any exception raised by a stage after
the in_progress commit is caught by the trailing `except` and recorded as a
failed transition with the message. -/
def processTask (env : Env) (st : WorkerStore) (task_id : Nat) (filters : PyVal) :
    WorkerStore :=
  match sessionGetTask st task_id with
  | none => st
  | some _ =>
    let st1 := markInProgress st task_id
    if !env.fileExists then
      failTask st1 task_id ("Data file not found at " ++ Config.UNIFIED_DATA_PATH)
    else
      match env.csv with
      | .error e => failTask st1 task_id e
      | .ok df =>
        match (if pyTruthy filters then applyFilters df filters else .ok df) with
        | .error e => failTask st1 task_id e
        | .ok df2 =>
          let created := createRecords df2 task_id
          let st2 := { st1 with records := st1.records ++ created.1 }
          match created.2 with
          | some e => failTask st2 task_id e
          | none => completeTask st2 task_id env.now

/-- `worker.py::_process_queue` over a finite trace of dequeued items: every
exception at this level is caught and logged (`_process_task` is total in the
embedding because it catches its own stage failures), so the loop always
proceeds to the next item. -/
def runWorker (env : Env) (st : WorkerStore) : List (Nat × PyVal) → WorkerStore
  | [] => st
  | (id, f) :: rest => runWorker env (processTask env st id f) rest

/-- `app.py::Task`: the prototype's task model.  It has no `error_message`
column and its status comment lists only pending, in_progress, completed. -/
structure AppTask where
  status : String := "pending"
  completed_at : Option Nat := none
deriving DecidableEq

/-- The prototype's durable state (`app.py` models). -/
structure AppStore where
  tasks : List (Nat × AppTask)
  records : List DataRecord
deriving DecidableEq

/-- `db.session.get(Task, task_id)` in `app.py`. -/
def appGetTask (st : AppStore) (id : Nat) : Option AppTask :=
  (st.tasks.find? (fun p => p.1 == id)).map (fun p => p.2)

/-- Committed update of an `app.py` task row. -/
def appUpdateTask (st : AppStore) (id : Nat) (f : AppTask → AppTask) : AppStore :=
  { st with tasks := st.tasks.map (fun p => if p.1 == id then (p.1, f p.2) else p) }

/-- `app.py::data_ingestion` record construction:
`pd.to_datetime(row["sale_date"], errors="coerce")` never raises —
an unparseable cell becomes NaT (NULL). -/
def appRowToRecord (task_id : Nat) (r : Row) : DataRecord :=
  { task_id := task_id, company := r.company, name := r.name,
    mpg := r.mpg, cylinders := r.cylinders,
    displacement := r.displacement, horsepower := r.horsepower,
    weight := r.weight, acceleration := r.acceleration,
    sale_date := (match r.sale_date with | .date d => some d | _ => none),
    price := r.price, origin := r.origin }

/-- `app.py::data_ingestion`: returns the committed store together with the
raised exception, if any.  No task-not-found guard (`task.status = ...` on
`None` raises `AttributeError` before anything is committed); the in_progress
transition is committed next; with the CSV file absent it prints an error and
returns early, leaving the committed in_progress and nothing else; a
`pd.read_csv` failure raises after that commit, so the in_progress transition
survives the caught exception; otherwise it inserts every row (the `filters`
parameter is never consulted) and marks the task completed. -/
def dataIngestion (env : Env) (st : AppStore) (task_id : Nat) (filters : PyVal) :
    AppStore × Option String :=
  match appGetTask st task_id with
  | none => (st, some "AttributeError: NoneType object has no attribute status")
  | some _ =>
    let st1 := appUpdateTask st task_id (fun t => { t with status := "in_progress" })
    if !env.fileExists then (st1, none)
    else
      match env.csv with
      | .error e => (st1, some e)
      | .ok df =>
        let st2 := { st1 with records := st1.records ++ df.map (appRowToRecord task_id) }
        (appUpdateTask st2 task_id
          (fun t => { t with status := "completed", completed_at := some env.now }),
         none)

/-- One iteration of `app.py::worker`: `data_ingestion` runs inside
`try/except`, so a raised exception is only printed and the store keeps
every transaction committed before the raise. -/
def appWorkerStep (env : Env) (st : AppStore) (item : Nat × PyVal) : AppStore :=
  (dataIngestion env st item.1 item.2).1

/-- `app.py::worker` over a finite trace of dequeued items. -/
def appRunWorker (env : Env) (st : AppStore) : List (Nat × PyVal) → AppStore
  | [] => st
  | item :: rest => appRunWorker env (appWorkerStep env st item) rest

/-- The client-visible shape assembled by `app.py::get_task`: the task fields
plus the attached `data` key, present only in the completed branch. -/
structure TaskResponse where
  status : String
  completed_at : Option Nat
  data : Option (List DataRecord)
deriving DecidableEq

/-- `app.py::get_task`: 404 (`none`) for an unknown id; otherwise the task
dict, with `data` attached — `DataRecord.query.filter_by(task_id=task_id)` —
exactly when the status is completed. -/
def get_task (st : AppStore) (task_id : Nat) : Option TaskResponse :=
  match appGetTask st task_id with
  | none => none
  | some t =>
    some { status := t.status, completed_at := t.completed_at,
           data := if t.status == "completed"
                   then some (st.records.filter (fun r => r.task_id == task_id))
                   else none }

/-- `queue.Queue(maxsize)` content; `maxsize = 0` means unbounded
(`app.py`'s global queue), `Config.MAX_QUEUE_SIZE` bounds the JobQueue. -/
structure BoundedQueue where
  maxsize : Nat
  items : List (Nat × PyVal)

/-- `queue.Queue.put(x, block=False)`: raises `queue.Full` exactly when the
queue is bounded and at capacity; otherwise appends (FIFO). -/
def putNowait (q : BoundedQueue) (x : Nat × PyVal) : Except String BoundedQueue :=
  if 0 < q.maxsize ∧ q.maxsize ≤ q.items.length then .error "queue.Full"
  else .ok { q with items := q.items ++ [x] }

/-- `worker.py::JobQueue.add_task`: `True` on enqueue, `False` when
`queue.Full` is raised; the queue is left unchanged in the latter case. -/
def add_task (q : BoundedQueue) (task_id : Nat) (filters : PyVal) :
    Bool × BoundedQueue :=
  match putNowait q (task_id, filters) with
  | .ok q1 => (true, q1)
  | .error _ => (false, q)

/-- A fresh id the Task Store would assign (greater than every existing id). -/
def freshId (st : WorkerStore) : Nat :=
  (st.tasks.map Prod.fst).foldr max 0 + 1

/-- Result of a submission as the facade reports it. -/
structure SubmitResult where
  store : WorkerStore
  queue : BoundedQueue
  new_id : Nat
  httpStatus : Nat

/-- Modelled from the spec: the Task Service submission route that drives
`JobQueue.add_task` is not among the src files (`app.py::create_task` uses
its own unbounded queue instead).  Per §4.5: create the Task with status
pending, attempt `Work Queue.enqueue`; if the queue is full, transition the
just-created task to failed with a "queue full" error and report
backpressure (HTTP 503-equivalent); otherwise report created (201). -/
def submitTask (st : WorkerStore) (q : BoundedQueue) (filters : PyVal) :
    SubmitResult :=
  let id := freshId st
  let st1 := { st with tasks := st.tasks ++ [(id, {})] }
  match add_task q id filters with
  | (true, q1) => { store := st1, queue := q1, new_id := id, httpStatus := 201 }
  | (false, _) =>
      { store := failTask st1 id "Queue is full, please try again later",
        queue := q, new_id := id, httpStatus := 503 }

/-- A JSON value, as `json.dumps`/`json.loads` exchange them. -/
inductive JVal where
  | null
  | jbool (b : Bool)
  | jnum (n : Int)
  | jstr (s : String)
  | jarr (xs : List JVal)
  | jobj (kvs : List (String × JVal))

/-- JSON string escaping of one character (quote and backslash). -/
def jescChar (c : Char) : String :=
  if c = '"' then "\\\"" else if c = '\\' then "\\\\" else String.singleton c

/-- JSON string escaping. -/
def jescape (s : String) : String :=
  String.join (s.toList.map jescChar)

mutual

/-- `json.dumps` with its default separators. -/
def jdumps : JVal → String
  | .null => "null"
  | .jbool true => "true"
  | .jbool false => "false"
  | .jnum n => toString n
  | .jstr s => "\"" ++ jescape s ++ "\""
  | .jarr xs => "[" ++ jdumpsList xs ++ "]"
  | .jobj kvs => "\x7b" ++ jdumpsObj kvs ++ "\x7d"

/-- Comma-joined dumps of array elements. -/
def jdumpsList : List JVal → String
  | [] => ""
  | [x] => jdumps x
  | x :: y :: rest => jdumps x ++ ", " ++ jdumpsList (y :: rest)

/-- Comma-joined dumps of object members. -/
def jdumpsObj : List (String × JVal) → String
  | [] => ""
  | [kv] => "\"" ++ jescape kv.1 ++ "\": " ++ jdumps kv.2
  | kv :: kv2 :: rest =>
      "\"" ++ jescape kv.1 ++ "\": " ++ jdumps kv.2 ++ ", " ++ jdumpsObj (kv2 :: rest)

end

/-- `models.py::Task.__init__`: a dict passed as the `filters` kwarg is
replaced by `json.dumps` of it before the column is assigned; `None` (or an
absent kwarg) leaves the column NULL.  The stored TEXT column is represented
by the JSON value it encodes — `json.loads`/`json.dumps` form a
decoder/encoder pair between values and their texts — and `taskFiltersText`
recovers the literal stored text.  The outer `Option` is kwarg presence, the
inner one separates a dict from `None`. -/
def taskInitFilters : Option (Option (List (String × JVal))) → Option JVal
  | some (some d) => some (.jobj d)
  | some none => none
  | none => none

/-- The literal TEXT stored in the `filters` column. -/
def taskFiltersText (stored : Option JVal) : Option String :=
  stored.map jdumps

/-- `models.py::Task.to_dict`, filters field:
`json.loads(self.filters) if self.filters and self.filters != 'null' else
None` — NULL, the empty text and the text `null` give `None`; any other
stored text is decoded. -/
def taskToDictFilters (stored : Option JVal) : Option JVal :=
  match stored with
  | none => none
  | some v => if jdumps v ≠ "" ∧ jdumps v ≠ "null" then some v else none

/-- Concrete environment: the unified CSV is absent. -/
def exEnvNoFile : Env := { fileExists := false, csv := .ok [], now := 3 }

/-- Concrete environment: the CSV exists and is empty. -/
def exEnvOk : Env := { fileExists := true, csv := .ok [], now := 5 }

/-- Concrete row dated 1974. -/
def exRow74 : Row := { company := some "Ford", sale_date := DateVal.date 19740315 }

/-- Concrete row dated 1975. -/
def exRow75 : Row := { company := some "Toyota", sale_date := DateVal.date 19750610 }

/-- Concrete row dated 1976. -/
def exRow76 : Row := { company := some "Honda", sale_date := DateVal.date 19760920 }

/-- Concrete row with an unparseable sale_date. -/
def exRowU : Row := { company := some "Fiat", sale_date := DateVal.unparseable }

/-- Concrete environment whose CSV holds one valid row. -/
def exEnvOneRow : Env := { fileExists := true, csv := .ok [exRow75], now := 7 }

/-- Concrete store with one freshly created task. -/
def exStore1 : WorkerStore := { tasks := [(1, {})], records := [] }

/-- Concrete store with two freshly created tasks. -/
def exStore2 : WorkerStore := { tasks := [(1, {}), (2, {})], records := [] }

/-- Concrete app-side store with one freshly created task. -/
def exAppStore : AppStore := { tasks := [(1, {})], records := [] }

/-- Concrete dataset for the brand-filter scenario: three Toyota rows and
five rows that are not the exact string Toyota. -/
def exToyRows : List Row :=
  [ { company := some "Toyota", name := some "corolla" },
    { company := some "Toyota", name := some "camry" },
    { company := some "Toyota", name := some "celica" },
    { company := some "Ford", name := some "pinto" },
    { company := some "Honda", name := some "civic" },
    { company := some "Chevrolet", name := some "impala" },
    { company := none, name := some "unknown" },
    { company := some "toyota", name := some "lowercase" } ]

/-- Concrete full queue at the configured capacity. -/
def exFullQueue : BoundedQueue :=
  { maxsize := Config.MAX_QUEUE_SIZE,
    items := List.replicate Config.MAX_QUEUE_SIZE (0, PyVal.pyNone) }

/-- Concrete task row as it looks after successful completion at time 5. -/
def exCompletedTask : Task :=
  { status := "completed", error_message := none, completed_at := some 5 }

/-- Concrete app-side store whose task 1 is completed and whose record store
holds one row owned by task 1 and one owned by task 2. -/
def exAppStoreDone : AppStore :=
  { tasks := [(1, { status := "completed", completed_at := some 9 })],
    records := [{ task_id := 1 }, { task_id := 2 }] }

/-- Concrete empty app-side store (no tasks). -/
def exAppStoreEmpty : AppStore := { tasks := [], records := [] }

/-- Concrete environment: the CSV file exists but `pd.read_csv` raises. -/
def exEnvBadCsv : Env :=
  { fileExists := true,
    csv := .error "ParserError: unreadable unified_cars.csv", now := 11 }

/-- Proof-side helper: the task row `processTask` leaves for the processed
id, as a function of the environment. -/
def finalTask (env : Env) (id : Nat) (filters : PyVal) (t : Task) : Task :=
  let t1 : Task := { t with status := "in_progress" }
  if !env.fileExists then
    { t1 with
      status := "failed",
      error_message := some ("Data file not found at " ++ Config.UNIFIED_DATA_PATH) }
  else
    match env.csv with
    | .error e => { t1 with status := "failed", error_message := some e }
    | .ok df =>
      match (if pyTruthy filters then applyFilters df filters else .ok df) with
      | .error e => { t1 with status := "failed", error_message := some e }
      | .ok df2 =>
        match (createRecords df2 id).2 with
        | some e => { t1 with status := "failed", error_message := some e }
        | none => { t1 with status := "completed", completed_at := some env.now }

theorem find?_update {β : Type} (l : List (Nat × β)) (id : Nat) (f : β → β) :
    (l.map (fun p => if p.1 == id then (p.1, f p.2) else p)).find? (fun p => p.1 == id)
      = (l.find? (fun p => p.1 == id)).map (fun p => (p.1, f p.2)) := by
  induction l with
  | nil => rfl
  | cons a l ih =>
      by_cases h : (a.1 == id) = true
      · have h1 : a.1 = id := by simpa using h
        simp [List.find?_cons, h1, -List.find?_map]
      · have h1 : (a.1 == id) = false := by simpa using h
        have h3 : ¬ ((a.1 == id) = true) := by simp [h1]
        rw [List.map_cons, if_neg h3]
        simp only [List.find?_cons, h1]
        exact ih

theorem sessionGetTask_updateTask (st : WorkerStore) (id : Nat) (f : Task → Task) :
    sessionGetTask (updateTask st id f) id = (sessionGetTask st id).map f := by
  unfold sessionGetTask updateTask
  rw [find?_update]
  cases st.tasks.find? (fun p => p.1 == id) <;> rfl

theorem appGetTask_appUpdateTask (st : AppStore) (id : Nat) (f : AppTask → AppTask) :
    appGetTask (appUpdateTask st id f) id = (appGetTask st id).map f := by
  unfold appGetTask appUpdateTask
  rw [find?_update]
  cases st.tasks.find? (fun p => p.1 == id) <;> rfl

theorem sessionGetTask_failTask {st : WorkerStore} {id : Nat} {t : Task}
    (h : sessionGetTask st id = some t) (msg : String) :
    sessionGetTask (failTask st id msg) id
      = some { t with status := "failed", error_message := some msg } := by
  unfold failTask; rw [sessionGetTask_updateTask, h]; rfl

theorem sessionGetTask_completeTask {st : WorkerStore} {id : Nat} {t : Task}
    (h : sessionGetTask st id = some t) (now : Nat) :
    sessionGetTask (completeTask st id now) id
      = some { t with status := "completed", completed_at := some now } := by
  unfold completeTask; rw [sessionGetTask_updateTask, h]; rfl

theorem sessionGetTask_markInProgress {st : WorkerStore} {id : Nat} {t : Task}
    (h : sessionGetTask st id = some t) :
    sessionGetTask (markInProgress st id) id
      = some { t with status := "in_progress" } := by
  unfold markInProgress; rw [sessionGetTask_updateTask, h]; rfl

theorem records_updateTask (st : WorkerStore) (id : Nat) (f : Task → Task) :
    (updateTask st id f).records = st.records := rfl

theorem sessionGetTask_setRecords (st : WorkerStore) (rs : List DataRecord) (id : Nat) :
    sessionGetTask { st with records := rs } id = sessionGetTask st id := rfl

theorem colHasUnparseable_false {rows : List Row}
    (h : ∀ r ∈ rows, r.sale_date ≠ DateVal.unparseable) :
    colHasUnparseable rows = false := by
  simp only [colHasUnparseable, List.any_eq_false]
  intro r hr
  simpa using h r hr

theorem convertDates_ok {rows : List Row}
    (h : ∀ r ∈ rows, r.sale_date ≠ DateVal.unparseable) :
    convertDates rows = .ok rows := by
  simp [convertDates, colHasUnparseable_false h]

theorem applyDictFilters_eq (rows : List Row) (f : FilterSpec)
    (h : ∀ r ∈ rows, r.sale_date ≠ DateVal.unparseable) :
    applyDictFilters rows f
      = .ok (rows.filter (fun r => dateOk f r && brandOk f r)) := by
  obtain ⟨sd, ed, bs, okeys⟩ := f
  have h1 : convertDates rows = Except.ok rows := convertDates_ok h
  have h2 : ∀ p : Row → Bool, convertDates (rows.filter p) = Except.ok (rows.filter p) :=
    fun p => convertDates_ok (fun r hr => h r (List.mem_of_mem_filter hr))
  cases sd <;> cases ed <;> rcases bs with _ | (_ | ⟨b, bl⟩) <;>
    simp [applyDictFilters, dateOk, brandOk, h1, h2, List.filter_filter,
      Bool.and_comm, Bool.and_left_comm, Bool.and_assoc]

theorem processTask_lookup (env : Env) (st : WorkerStore) (id : Nat)
    (filters : PyVal) (t : Task) (hget : sessionGetTask st id = some t) :
    sessionGetTask (processTask env st id filters) id
      = some (finalTask env id filters t) := by
  have ht1 := sessionGetTask_markInProgress hget
  unfold processTask finalTask
  rw [hget]
  cases hf : env.fileExists
  · simp only [hf, Bool.not_false, if_pos]
    exact sessionGetTask_failTask ht1 _
  · simp only [hf, Bool.not_true, Bool.false_eq_true, if_neg, ite_false]
    cases hcsv : env.csv with
    | error e => exact sessionGetTask_failTask ht1 e
    | ok df =>
      dsimp only
      cases hap : (if pyTruthy filters then applyFilters df filters else Except.ok df) with
      | error e => exact sessionGetTask_failTask ht1 e
      | ok df2 =>
        dsimp only
        have ht2 : sessionGetTask
            { (markInProgress st id) with
              records := (markInProgress st id).records ++ (createRecords df2 id).1 } id
            = some { t with status := "in_progress" } := ht1
        cases hcr : (createRecords df2 id).2 with
        | some e => exact sessionGetTask_failTask ht2 e
        | none => exact sessionGetTask_completeTask ht2 env.now

theorem processTask_records_noFile (env : Env) (st : WorkerStore) (id : Nat)
    (filters : PyVal) (henv : env.fileExists = false) :
    (processTask env st id filters).records = st.records := by
  unfold processTask
  cases hget : sessionGetTask st id with
  | none => rfl
  | some t => simp [henv, failTask, markInProgress, updateTask]

theorem finalTask_cases (env : Env) (id : Nat) (filters : PyVal) (t : Task) :
    (∃ m, finalTask env id filters t
        = { t with status := "failed", error_message := some m }) ∨
    finalTask env id filters t
        = { t with status := "completed", completed_at := some env.now } := by
  unfold finalTask
  cases hf : env.fileExists
  · exact Or.inl ⟨_, rfl⟩
  · dsimp only [Bool.not_true]
    rw [if_neg (by simp)]
    cases hcsv : env.csv with
    | error e => exact Or.inl ⟨e, rfl⟩
    | ok df =>
      dsimp only
      cases hap : (if pyTruthy filters then applyFilters df filters else Except.ok df) with
      | error e => exact Or.inl ⟨e, rfl⟩
      | ok df2 =>
        dsimp only
        cases hcr : (createRecords df2 id).2 with
        | some e => exact Or.inl ⟨e, rfl⟩
        | none => exact Or.inr rfl

theorem find?_update_ne {β : Type} (l : List (Nat × β)) (i j : Nat) (f : β → β)
    (hne : i ≠ j) :
    (l.map (fun p => if p.1 == i then (p.1, f p.2) else p)).find? (fun p => p.1 == j)
      = l.find? (fun p => p.1 == j) := by
  induction l with
  | nil => rfl
  | cons a l ih =>
      by_cases ha : (a.1 == i) = true
      · have haj : (a.1 == j) = false := by
          have : a.1 = i := by simpa using ha
          simp [this, hne]
        simp only [List.map_cons, if_pos ha]
        simp only [List.find?_cons, haj]
        exact ih
      · simp only [List.map_cons, if_neg ha]
        by_cases haj : (a.1 == j) = true
        · simp only [List.find?_cons, haj]
        · have haj2 : (a.1 == j) = false := by simpa using haj
          simp only [List.find?_cons, haj2]
          exact ih

theorem sessionGetTask_updateTask_ne (st : WorkerStore) (i j : Nat)
    (f : Task → Task) (hne : i ≠ j) :
    sessionGetTask (updateTask st i f) j = sessionGetTask st j := by
  unfold sessionGetTask updateTask
  rw [find?_update_ne _ _ _ _ hne]

theorem sessionGetTask_processTask_ne (env : Env) (st : WorkerStore)
    (i j : Nat) (filters : PyVal) (hne : i ≠ j) :
    sessionGetTask (processTask env st i filters) j = sessionGetTask st j := by
  unfold processTask
  cases hget : sessionGetTask st i with
  | none => rfl
  | some t =>
    have hbase : sessionGetTask (markInProgress st i) j = sessionGetTask st j :=
      sessionGetTask_updateTask_ne st i j _ hne
    cases hf : env.fileExists
    · simp only [hf, Bool.not_false, if_pos]
      exact (sessionGetTask_updateTask_ne _ _ _ _ hne).trans hbase
    · simp only [hf, Bool.not_true, Bool.false_eq_true, if_neg, ite_false]
      cases hcsv : env.csv with
      | error e => exact (sessionGetTask_updateTask_ne _ _ _ _ hne).trans hbase
      | ok df =>
        dsimp only
        cases hap : (if pyTruthy filters then applyFilters df filters else Except.ok df) with
        | error e => exact (sessionGetTask_updateTask_ne _ _ _ _ hne).trans hbase
        | ok df2 =>
          dsimp only
          cases hcr : (createRecords df2 i).2 with
          | some e => exact (sessionGetTask_updateTask_ne _ _ _ _ hne).trans hbase
          | none => exact (sessionGetTask_updateTask_ne _ _ _ _ hne).trans hbase

theorem find?_append_fresh {β : Type} (l : List (Nat × β)) (id : Nat) (t : β)
    (h : ∀ p ∈ l, p.1 ≠ id) :
    (l ++ [(id, t)]).find? (fun p => p.1 == id) = some (id, t) := by
  induction l with
  | nil => simp [List.find?_cons]
  | cons a l ih =>
      have ha : (a.1 == id) = false := by
        simpa using h a (List.mem_cons_self a l)
      simp only [List.cons_append, List.find?_cons, ha]
      exact ih (fun p hp => h p (List.mem_cons_of_mem a hp))

theorem le_foldr_max {l : List Nat} {x : Nat} (h : x ∈ l) :
    x ≤ l.foldr max 0 := by
  induction l with
  | nil => cases h
  | cons a l ih =>
      rcases List.mem_cons.mp h with rfl | hm
      · exact Nat.le_max_left _ _
      · exact Nat.le_trans (ih hm) (Nat.le_max_right _ _)

theorem freshId_not_mem (st : WorkerStore) :
    ∀ p ∈ st.tasks, p.1 ≠ freshId st := by
  intro p hp heq
  have hx : p.1 ∈ st.tasks.map Prod.fst := List.mem_map_of_mem Prod.fst hp
  have h2 := le_foldr_max hx
  rw [heq] at h2
  unfold freshId at h2
  omega

theorem jdumps_jobj_ne_empty (d : List (String × JVal)) :
    jdumps (JVal.jobj d) ≠ "" := by
  intro h
  have h2 := congrArg String.length h
  simp [jdumps, String.length_append] at h2
  exact absurd h2.1.1 (by decide)

theorem jdumps_jobj_ne_null (d : List (String × JVal)) :
    jdumps (JVal.jobj d) ≠ "null" := by
  intro h
  have h2 := congrArg String.data h
  simp [jdumps, String.data_append] at h2

/-- C2: a task processed by the worker from its creation state
(`error_message` and `completed_at` both null) satisfies, at any terminal
status it reaches: completed implies `completed_at` set and `error_message`
null; failed implies `error_message` set and `completed_at` null — never
both set, and never both null at a terminal status. -/
theorem C2_terminal_fields (env : Env) (st : WorkerStore) (id : Nat)
    (filters : PyVal) (t t2 : Task)
    (hget : sessionGetTask st id = some t)
    (herr : t.error_message = none) (hcomp : t.completed_at = none)
    (hget2 : sessionGetTask (processTask env st id filters) id = some t2) :
    (t2.status = "completed" → t2.completed_at.isSome ∧ t2.error_message = none) ∧
    (t2.status = "failed" → t2.error_message.isSome ∧ t2.completed_at = none) ∧
    ¬(t2.completed_at.isSome ∧ t2.error_message.isSome) ∧
    ((t2.status = "completed" ∨ t2.status = "failed") →
      (t2.completed_at.isSome ∨ t2.error_message.isSome)) := by
  rw [processTask_lookup env st id filters t hget] at hget2
  have ht2 : finalTask env id filters t = t2 := by injection hget2
  rcases finalTask_cases env id filters t with ⟨m, hm⟩ | hm <;>
    rw [hm] at ht2 <;> subst ht2 <;> simp [herr, hcomp]

/-- C2 witness: the concrete one-task store processed in the healthy
environment reaches completed with exactly `completed_at` set. -/
theorem C2_terminal_fields_witness :
    (exCompletedTask.status = "completed" →
      exCompletedTask.completed_at.isSome ∧ exCompletedTask.error_message = none) ∧
    (exCompletedTask.status = "failed" →
      exCompletedTask.error_message.isSome ∧ exCompletedTask.completed_at = none) ∧
    ¬(exCompletedTask.completed_at.isSome ∧ exCompletedTask.error_message.isSome) ∧
    ((exCompletedTask.status = "completed" ∨ exCompletedTask.status = "failed") →
      (exCompletedTask.completed_at.isSome ∨ exCompletedTask.error_message.isSome)) :=
  C2_terminal_fields exEnvOk exStore1 1 PyVal.pyNone {} exCompletedTask rfl rfl rfl rfl

/-- C1: with the unified dataset absent, the worker pipeline does satisfy the
claim — the task ends failed with the non-empty message naming the missing
path and the record store is untouched — but `app.py`'s served
`data_ingestion` at the same failing input merely returns after the
in_progress commit: the task is left in_progress (no terminal failed status,
no error recorded — its model has no error column) with no records written. -/
theorem C1_missing_dataset (env : Env) (st : WorkerStore) (ast : AppStore)
    (id : Nat) (filters : PyVal) (t : Task) (u : AppTask)
    (henv : env.fileExists = false)
    (hget : sessionGetTask st id = some t)
    (haget : appGetTask ast id = some u) :
    sessionGetTask (processTask env st id filters) id
      = some { t with
               status := "failed",
               error_message :=
                 some ("Data file not found at " ++ Config.UNIFIED_DATA_PATH) } ∧
    ("Data file not found at " ++ Config.UNIFIED_DATA_PATH) ≠ "" ∧
    (processTask env st id filters).records = st.records ∧
    dataIngestion env ast id filters
      = (appUpdateTask ast id (fun a => { a with status := "in_progress" }), none) ∧
    (appUpdateTask ast id (fun a => { a with status := "in_progress" })).records
      = ast.records ∧
    appGetTask (appUpdateTask ast id (fun a => { a with status := "in_progress" })) id
      = some { u with status := "in_progress" } := by
  refine ⟨?_, by decide, processTask_records_noFile env st id filters henv, ?_, rfl, ?_⟩
  · rw [processTask_lookup env st id filters t hget]
    unfold finalTask
    simp [henv]
  · unfold dataIngestion
    rw [haget]
    simp [henv]
  · rw [appGetTask_appUpdateTask, haget]
    rfl

/-- C1 witness: the concrete failing input — one fresh task, dataset file
absent — evaluated through both pipelines. -/
theorem C1_missing_dataset_witness :
    sessionGetTask (processTask exEnvNoFile exStore1 1 PyVal.pyNone) 1
      = some { status := "failed",
               error_message :=
                 some ("Data file not found at " ++ Config.UNIFIED_DATA_PATH),
               completed_at := none } ∧
    ("Data file not found at " ++ Config.UNIFIED_DATA_PATH) ≠ "" ∧
    (processTask exEnvNoFile exStore1 1 PyVal.pyNone).records = exStore1.records ∧
    dataIngestion exEnvNoFile exAppStore 1 PyVal.pyNone
      = (appUpdateTask exAppStore 1 (fun a => { a with status := "in_progress" }), none) ∧
    (appUpdateTask exAppStore 1 (fun a => { a with status := "in_progress" })).records
      = exAppStore.records ∧
    appGetTask (appUpdateTask exAppStore 1 (fun a => { a with status := "in_progress" })) 1
      = some { status := "in_progress", completed_at := none } :=
  C1_missing_dataset exEnvNoFile exStore1 exAppStore 1 PyVal.pyNone {} {} rfl rfl rfl

/-- C9: in the served pipeline the materialized records are independent of
the submitted filter spec — `data_ingestion` never consults its `filters`
argument, so any two submissions against the same dataset produce the same
store. -/
theorem C9_filters_independence (env : Env) (st : AppStore) (id : Nat)
    (f1 f2 : PyVal) :
    dataIngestion env st id f1 = dataIngestion env st id f2 := rfl

/-- C10: a dict passed as `filters` to the `models.py::Task` constructor is
stored as its JSON text, and `to_dict` decodes it back to the same dict;
a task constructed with `filters` absent or `None` yields a null filters
field in `to_dict`. -/
theorem C10_filters_roundtrip :
    (∀ d : List (String × JVal),
      taskFiltersText (taskInitFilters (some (some d))) = some (jdumps (JVal.jobj d)) ∧
      taskToDictFilters (taskInitFilters (some (some d))) = some (JVal.jobj d)) ∧
    taskToDictFilters (taskInitFilters (some none)) = none ∧
    taskToDictFilters (taskInitFilters none) = none := by
  refine ⟨fun d => ⟨rfl, ?_⟩, rfl, rfl⟩
  unfold taskToDictFilters taskInitFilters
  dsimp only
  rw [if_pos ⟨jdumps_jobj_ne_empty d, jdumps_jobj_ne_null d⟩]

/-- C7: fetching an existing task attaches data exactly when its status is
completed, and every attached row's task_id equals the fetched id. -/
theorem C7_fetch_visibility (st : AppStore) (id : Nat) (resp : TaskResponse)
    (h : get_task st id = some resp) :
    (resp.status ≠ "completed" → resp.data = none) ∧
    (resp.status = "completed" →
      ∃ rs, resp.data = some rs ∧ ∀ r ∈ rs, r.task_id = id) := by
  unfold get_task at h
  cases hg : appGetTask st id with
  | none => rw [hg] at h; cases h
  | some t =>
    rw [hg] at h
    dsimp only at h
    injection h with h2
    subst h2
    constructor
    · intro hnc
      have hb : (t.status == "completed") = false := by
        simpa using hnc
      simp [hb]
    · intro hc
      have hb : (t.status == "completed") = true := by
        simpa using hc
      refine ⟨st.records.filter (fun r => r.task_id == id), ?_, ?_⟩
      · simp [hb]
      · intro r hr
        have hr2 := (List.mem_filter.mp hr).2
        simpa using hr2

/-- C7 witness: fetching the concrete completed task returns exactly its own
record. -/
theorem C7_fetch_visibility_witness :
    (TaskResponse.status
        { status := "completed", completed_at := some 9,
          data := some [{ task_id := 1 }] } ≠ "completed" →
      TaskResponse.data
        { status := "completed", completed_at := some 9,
          data := some [{ task_id := 1 }] } = none) ∧
    (TaskResponse.status
        { status := "completed", completed_at := some 9,
          data := some [{ task_id := 1 }] } = "completed" →
      ∃ rs, TaskResponse.data
          { status := "completed", completed_at := some 9,
            data := some [{ task_id := 1 }] } = some rs ∧
        ∀ r ∈ rs, DataRecord.task_id r = 1) :=
  C7_fetch_visibility exAppStoreDone 1
    { status := "completed", completed_at := some 9, data := some [{ task_id := 1 }] }
    rfl

/-- C3 counterexample: with a date bound present and a row whose sale_date
is unparseable, `_apply_filters` raises (the whole task fails) instead of
excluding that row — the claim's required output, the 1975 row alone, is
not produced. -/
theorem C3_counterexample :
    applyFilters [exRowU, exRow75] (PyVal.pyDict { startDate := some 19700101 })
      = .error "Unknown datetime string format" ∧
    applyFilters [exRowU, exRow75] (PyVal.pyDict { startDate := some 19700101 })
      ≠ .ok [exRow75] := by
  refine ⟨rfl, ?_⟩
  intro hc
  exact Except.noConfusion
    ((rfl : (Except.error "Unknown datetime string format" : Except String (List Row))
        = applyFilters [exRowU, exRow75]
            (PyVal.pyDict { startDate := some 19700101 })).trans hc)

/-- C3 (amended): for row sets whose sale_date cells are each parseable or
missing, the dict filter retains exactly the rows satisfying the present
bounds with inclusive comparison; a missing sale_date row fails every
present bound and is retained on the date dimension when no bound is
present; but a row set containing an unparseable sale_date makes the filter
raise (failing the task) whenever a date bound is present, rather than
excluding that row. -/
theorem C3_date_filter (rows rows2 : List Row) (sd ed : Option Int)
    (h : ∀ r ∈ rows, r.sale_date ≠ DateVal.unparseable) :
    applyFilters rows (PyVal.pyDict { startDate := sd, endDate := ed })
      = .ok (rows.filter (dateOk { startDate := sd, endDate := ed })) ∧
    (∀ r : Row, r.sale_date = DateVal.missing →
      ((sd.isSome ∨ ed.isSome) →
          dateOk { startDate := sd, endDate := ed } r = false) ∧
      (sd = none → ed = none →
          dateOk { startDate := sd, endDate := ed } r = true)) ∧
    (∀ (r : Row) (lo hi d : Int), r.sale_date = DateVal.date d →
      dateOk { startDate := some lo, endDate := some hi } r
        = (decide (lo ≤ d) && decide (d ≤ hi))) ∧
    ((∃ r ∈ rows2, r.sale_date = DateVal.unparseable) → (sd.isSome ∨ ed.isSome) →
      applyFilters rows2 (PyVal.pyDict { startDate := sd, endDate := ed })
        = .error "Unknown datetime string format") := by
  refine ⟨?_, ?_, ?_, ?_⟩
  · have heq := applyDictFilters_eq rows { startDate := sd, endDate := ed } h
    rw [show applyFilters rows (PyVal.pyDict { startDate := sd, endDate := ed })
        = applyDictFilters rows { startDate := sd, endDate := ed } from rfl, heq]
    congr 1
    apply List.filter_congr
    intro r _
    simp [brandOk]
  · intro r hmiss
    constructor
    · intro hb
      cases sd <;> cases ed <;> simp_all [dateOk, dateGe, dateLe]
    · intro hsd hed
      subst hsd
      subst hed
      simp [dateOk]
  · intro r lo hi d hd
    simp [dateOk, dateGe, dateLe, hd]
  · intro hex hb
    obtain ⟨r, hr, hu⟩ := hex
    have hcol : colHasUnparseable rows2 = true := by
      unfold colHasUnparseable
      rw [List.any_eq_true]
      exact ⟨r, hr, by simp [hu]⟩
    have hcd : convertDates rows2 = Except.error "Unknown datetime string format" := by
      simp [convertDates, hcol]
    show applyDictFilters rows2 { startDate := sd, endDate := ed }
        = Except.error "Unknown datetime string format"
    cases sd with
    | some lo => simp [applyDictFilters, hcd]
    | none =>
      cases ed with
      | some hi => simp [applyDictFilters, hcd]
      | none => simp at hb

/-- C3 witness: the 1974/1975/1976 scenario with the inclusive year-1975
bounds, plus the raising behavior on a concrete unparseable row. -/
theorem C3_date_filter_witness :
    applyFilters [exRow74, exRow75, exRow76]
        (PyVal.pyDict { startDate := some 19750101, endDate := some 19751231 })
      = .ok ([exRow74, exRow75, exRow76].filter
          (dateOk { startDate := some 19750101, endDate := some 19751231 })) ∧
    dateOk { startDate := some 19750101, endDate := some 19751231 } exRow75
      = (decide ((19750101 : Int) ≤ 19750610) && decide ((19750610 : Int) ≤ 19751231)) ∧
    applyFilters [exRowU]
        (PyVal.pyDict { startDate := some 19750101, endDate := some 19751231 })
      = .error "Unknown datetime string format" := by
  have T := C3_date_filter [exRow74, exRow75, exRow76] [exRowU]
    (some 19750101) (some 19751231) (by decide)
  exact ⟨T.1, T.2.2.1 exRow75 19750101 19751231 19750610 rfl,
    T.2.2.2 ⟨exRowU, by simp, rfl⟩ (Or.inl rfl)⟩

/-- C6: with `carBrands` present and non-empty, exactly the rows whose
company is string-equal (exact, case-sensitive) to some listed brand are
retained; with `carBrands` empty or absent no row is excluded on the brand
dimension. -/
theorem C6_brand_filter (rows : List Row) (bs : List String) (hne : bs ≠ []) :
    applyFilters rows (PyVal.pyDict { carBrands := some bs })
      = .ok (rows.filter (companyMatches bs)) ∧
    (∀ r : Row, companyMatches bs r = true ↔ ∃ c, r.company = some c ∧ c ∈ bs) ∧
    applyFilters rows (PyVal.pyDict { carBrands := some [] }) = .ok rows ∧
    applyFilters rows (PyVal.pyDict { carBrands := (none : Option (List String)) })
      = .ok rows := by
  refine ⟨?_, ?_, rfl, rfl⟩
  · cases bs with
    | nil => exact absurd rfl hne
    | cons b bl => rfl
  · intro r
    cases hc : r.company with
    | none => simp [companyMatches, hc]
    | some c => simp [companyMatches, hc]

/-- C6 witness: the Toyota scenario — three exact-match rows retained, the
lowercase toyota row, the missing-company row and the other brands are not
matched. -/
theorem C6_brand_filter_witness :
    applyFilters exToyRows (PyVal.pyDict { carBrands := some ["Toyota"] })
      = .ok (exToyRows.filter (companyMatches ["Toyota"])) ∧
    (companyMatches ["Toyota"]
        { company := some "Toyota", name := some "corolla" } = true
      ↔ ∃ c, Row.company { company := some "Toyota", name := some "corolla" }
            = some c ∧ c ∈ ["Toyota"]) ∧
    applyFilters exToyRows (PyVal.pyDict { carBrands := some [] }) = .ok exToyRows ∧
    applyFilters exToyRows
        (PyVal.pyDict { carBrands := (none : Option (List String)) })
      = .ok exToyRows := by
  have T := C6_brand_filter exToyRows ["Toyota"] (by decide)
  exact ⟨T.1, T.2.1 { company := some "Toyota", name := some "corolla" }, T.2.2.1, T.2.2.2⟩

/-- C5 counterexample: a present, truthy, non-dict filters value — the JSON
array [1] — is neither rejected at validation nor raised on by the worker:
the filter returns the rows unchanged and the task completes with the full
dataset materialized, a silent no-op. -/
theorem C5_counterexample :
    pyTruthy (PyVal.pyList [PyVal.pyInt 1]) = true ∧
    applyFilters [exRow75] (PyVal.pyList [PyVal.pyInt 1]) = .ok [exRow75] ∧
    sessionGetTask (processTask exEnvOneRow exStore1 1 (PyVal.pyList [PyVal.pyInt 1])) 1
      = some { status := "completed", error_message := none, completed_at := some 7 } ∧
    (processTask exEnvOneRow exStore1 1 (PyVal.pyList [PyVal.pyInt 1])).records
      = [{ task_id := 1, company := some "Toyota", sale_date := some 19750610 }] :=
  ⟨rfl, rfl, rfl, rfl⟩

/-- C5 (amended): a present string filter that fails JSON parsing does
surface a typed parsing failure (the task fails with the decode error); but
a present non-dict, non-string structured value whose membership tests miss
the recognized keys — any list without those key strings — is treated as a
silent no-op: the rows pass through unfiltered. -/
theorem C5_malformed_filters (rows : List Row) (s : String) (xs : List PyVal)
    (hx : ∀ v ∈ xs, ∀ t p, v = PyVal.pyStr t p →
      t ≠ "startDate" ∧ t ≠ "endDate" ∧ t ≠ "carBrands") :
    applyFilters rows (PyVal.pyStr s none)
      = .error "json.decoder.JSONDecodeError: Expecting value" ∧
    applyFilters rows (PyVal.pyList xs) = .ok rows := by
  refine ⟨rfl, ?_⟩
  have hany : ∀ k : String, (k = "startDate" ∨ k = "endDate" ∨ k = "carBrands") →
      (xs.any (fun v => match v with | .pyStr t _ => t == k | _ => false)) = false := by
    intro k hks
    rw [List.any_eq_false]
    intro v hv
    cases v with
    | pyNone => simp
    | pyInt n => simp
    | pyList l => simp
    | pyDict f => simp
    | pyStr t p =>
        obtain ⟨h1, h2, h3⟩ := hx (PyVal.pyStr t p) hv t p rfl
        rcases hks with rfl | rfl | rfl
        · simpa using h1
        · simpa using h2
        · simpa using h3
  have k1 : keyIn "startDate" (PyVal.pyList xs) = Except.ok false := by
    unfold keyIn
    dsimp only
    rw [hany "startDate" (Or.inl rfl)]
  have k2 : keyIn "endDate" (PyVal.pyList xs) = Except.ok false := by
    unfold keyIn
    dsimp only
    rw [hany "endDate" (Or.inr (Or.inl rfl))]
  have k3 : keyIn "carBrands" (PyVal.pyList xs) = Except.ok false := by
    unfold keyIn
    dsimp only
    rw [hany "carBrands" (Or.inr (Or.inr rfl))]
  show applyNonDictFilters rows (PyVal.pyList xs) = Except.ok rows
  unfold applyNonDictFilters
  rw [k1]
  dsimp only
  rw [k2]
  dsimp only
  rw [k3]

/-- C5 witness: the concrete malformed string and the concrete list [1]. -/
theorem C5_malformed_filters_witness :
    applyFilters [exRow75] (PyVal.pyStr "not json" none)
      = .error "json.decoder.JSONDecodeError: Expecting value" ∧
    applyFilters [exRow75] (PyVal.pyList [PyVal.pyInt 1]) = .ok [exRow75] :=
  C5_malformed_filters [exRow75] "not json" [PyVal.pyInt 1]
    (by
      intro v hv t p heq
      rw [List.mem_singleton] at hv
      subst hv
      exact PyVal.noConfusion heq)

/-- C4: when the bounded queue already holds `MAX_QUEUE_SIZE` items, the
non-blocking enqueue returns False (rejected, queue unchanged — it neither
succeeds nor blocks), and the submission facade marks the just-created task
failed with the queue-full error and reports backpressure (503). -/
theorem C4_backpressure (st : WorkerStore) (q : BoundedQueue) (filters : PyVal)
    (hcap : q.maxsize = Config.MAX_QUEUE_SIZE)
    (hfull : q.items.length = q.maxsize) :
    (add_task q (freshId st) filters).1 = false ∧
    (add_task q (freshId st) filters).2 = q ∧
    (submitTask st q filters).httpStatus = 503 ∧
    sessionGetTask (submitTask st q filters).store (submitTask st q filters).new_id
      = some { status := "failed",
               error_message := some "Queue is full, please try again later",
               completed_at := none } := by
  have hput : putNowait q (freshId st, filters) = Except.error "queue.Full" := by
    unfold putNowait
    rw [if_pos]
    constructor
    · rw [hcap]
      decide
    · rw [hfull]
  have hadd : add_task q (freshId st) filters = (false, q) := by
    unfold add_task
    rw [hput]
  have hfresh : sessionGetTask
      { st with tasks := st.tasks ++ [(freshId st, {})] } (freshId st)
      = some {} := by
    unfold sessionGetTask
    rw [show ({ st with tasks := st.tasks ++ [(freshId st, {})] } : WorkerStore).tasks
        = st.tasks ++ [(freshId st, {})] from rfl]
    rw [find?_append_fresh st.tasks (freshId st) {} (freshId_not_mem st)]
    rfl
  refine ⟨by rw [hadd], by rw [hadd], ?_, ?_⟩
  · unfold submitTask
    dsimp only
    rw [hadd]
  · unfold submitTask
    dsimp only
    rw [hadd]
    dsimp only
    rw [sessionGetTask_failTask hfresh "Queue is full, please try again later"]

/-- C4 witness: the concrete queue holding exactly 100 items. -/
theorem C4_backpressure_witness :
    (add_task exFullQueue (freshId exStore1) PyVal.pyNone).1 = false ∧
    (add_task exFullQueue (freshId exStore1) PyVal.pyNone).2 = exFullQueue ∧
    (submitTask exStore1 exFullQueue PyVal.pyNone).httpStatus = 503 ∧
    sessionGetTask (submitTask exStore1 exFullQueue PyVal.pyNone).store
        (submitTask exStore1 exFullQueue PyVal.pyNone).new_id
      = some { status := "failed",
               error_message := some "Queue is full, please try again later",
               completed_at := none } :=
  C4_backpressure exStore1 exFullQueue PyVal.pyNone rfl (by decide)

/-- C8: the worker.py loop does what the claim says — with the dataset
absent, two queued tasks both end failed with the captured message, so a
processing-stage failure is recorded as task state and never stops the next
dequeue — but `app.py`'s cited worker does not: when `pd.read_csv` raises
after the committed in_progress transition, its `except` only prints, the
task stays in_progress with nothing recorded as task state (its model has no
error column), and the loop merely proceeds with that store. -/
theorem C8_loop_continues (env env2 : Env) (st : WorkerStore) (ast : AppStore)
    (i j : Nat) (fi fj : PyVal) (ti tj : Task) (u : AppTask) (e : String)
    (henv : env.fileExists = false) (hne : i ≠ j)
    (hgi : sessionGetTask st i = some ti)
    (hgj : sessionGetTask st j = some tj)
    (haget : appGetTask ast i = some u)
    (henv2 : env2.fileExists = true) (hcsv2 : env2.csv = .error e) :
    runWorker env st [(i, fi), (j, fj)]
      = processTask env (processTask env st i fi) j fj ∧
    sessionGetTask (runWorker env st [(i, fi), (j, fj)]) i
      = some { ti with
               status := "failed",
               error_message :=
                 some ("Data file not found at " ++ Config.UNIFIED_DATA_PATH) } ∧
    sessionGetTask (runWorker env st [(i, fi), (j, fj)]) j
      = some { tj with
               status := "failed",
               error_message :=
                 some ("Data file not found at " ++ Config.UNIFIED_DATA_PATH) } ∧
    (dataIngestion env2 ast i fi).2 = some e ∧
    appWorkerStep env2 ast (i, fi)
      = appUpdateTask ast i (fun a => { a with status := "in_progress" }) ∧
    appGetTask (appWorkerStep env2 ast (i, fi)) i
      = some { u with status := "in_progress" } ∧
    (∀ rest : List (Nat × PyVal),
      appRunWorker env2 ast ((i, fi) :: rest)
        = appRunWorker env2 (appWorkerStep env2 ast (i, fi)) rest) := by
  have hstep : runWorker env st [(i, fi), (j, fj)]
      = processTask env (processTask env st i fi) j fj := rfl
  have happ : appWorkerStep env2 ast (i, fi)
      = appUpdateTask ast i (fun a => { a with status := "in_progress" }) := by
    unfold appWorkerStep dataIngestion
    rw [haget]
    simp [henv2, hcsv2]
  refine ⟨rfl, ?_, ?_, ?_, happ, ?_, fun rest => rfl⟩
  · rw [hstep, sessionGetTask_processTask_ne env _ j i fj (Ne.symm hne),
      processTask_lookup env st i fi ti hgi]
    unfold finalTask
    simp [henv]
  · have hgj2 : sessionGetTask (processTask env st i fi) j = some tj := by
      rw [sessionGetTask_processTask_ne env st i j fi hne]
      exact hgj
    rw [hstep, processTask_lookup env _ j fj tj hgj2]
    unfold finalTask
    simp [henv]
  · unfold dataIngestion
    rw [haget]
    simp [henv2, hcsv2]
  · rw [happ, appGetTask_appUpdateTask, haget]
    rfl

/-- C8 witness: two concrete fresh tasks processed with the dataset absent,
and the app worker fed its one task while `pd.read_csv` raises. -/
theorem C8_loop_continues_witness :
    runWorker exEnvNoFile exStore2 [(1, PyVal.pyNone), (2, PyVal.pyNone)]
      = processTask exEnvNoFile (processTask exEnvNoFile exStore2 1 PyVal.pyNone)
          2 PyVal.pyNone ∧
    sessionGetTask (runWorker exEnvNoFile exStore2 [(1, PyVal.pyNone), (2, PyVal.pyNone)]) 1
      = some { status := "failed",
               error_message :=
                 some ("Data file not found at " ++ Config.UNIFIED_DATA_PATH),
               completed_at := none } ∧
    sessionGetTask (runWorker exEnvNoFile exStore2 [(1, PyVal.pyNone), (2, PyVal.pyNone)]) 2
      = some { status := "failed",
               error_message :=
                 some ("Data file not found at " ++ Config.UNIFIED_DATA_PATH),
               completed_at := none } ∧
    (dataIngestion exEnvBadCsv exAppStore 1 PyVal.pyNone).2
      = some "ParserError: unreadable unified_cars.csv" ∧
    appWorkerStep exEnvBadCsv exAppStore (1, PyVal.pyNone)
      = appUpdateTask exAppStore 1 (fun a => { a with status := "in_progress" }) ∧
    appGetTask (appWorkerStep exEnvBadCsv exAppStore (1, PyVal.pyNone)) 1
      = some { status := "in_progress", completed_at := none } ∧
    appRunWorker exEnvBadCsv exAppStore [(1, PyVal.pyNone)]
      = appRunWorker exEnvBadCsv (appWorkerStep exEnvBadCsv exAppStore (1, PyVal.pyNone)) [] := by
  have T := C8_loop_continues exEnvNoFile exEnvBadCsv exStore2 exAppStore
    1 2 PyVal.pyNone PyVal.pyNone {} {} {} "ParserError: unreadable unified_cars.csv"
    rfl (by decide) rfl rfl rfl rfl rfl
  exact ⟨T.1, T.2.1, T.2.2.1, T.2.2.2.1, T.2.2.2.2.1, T.2.2.2.2.2.1, T.2.2.2.2.2.2 []⟩

end Narravance
